import Mathlib

/-!
Verification development for the `DesktopFileMaker` icon-search subsystem
(`src/src/core/icon_search.py`).

The Python module is shallowly embedded below.  Network and filesystem
effects are modelled as explicit environment records (oracle functions):
an HTTP call that can fail or return data becomes a Lean function supplied
by the environment, and the Python functions become total Lean functions
over those environments.  Python machine-independent `int` is modelled as
`Int` (widths, heights, scores), Python `str` as `String`, and the one
floating-point computation (the aspect ratio in `is_square`) is modelled
with exact rationals `ℚ`; IEEE-754 rounding of the quotient is not
modelled (it is exact at all dimension values relevant here).
-/

/-! ### String helpers mirroring Python primitives

All string manipulation is implemented by structural recursion over the
underlying character lists, so that every definition reduces inside the
kernel (the built-in `String` operations are position-based and do
not). -/

/-- Whether `pat` is a prefix of `s` (character lists). -/
def startsWithChars : List Char → List Char → Bool
  | _, [] => true
  | [], _ :: _ => false
  | c :: cs, p :: ps => c == p && startsWithChars cs ps

/-- Whether `pat` occurs as a contiguous sublist of `s`. -/
def containsChars : List Char → List Char → Bool
  | [], pat => pat.isEmpty
  | c :: rest, pat => startsWithChars (c :: rest) pat || containsChars rest pat

/-- Python `pat in s` (substring test). -/
def strContains (s pat : String) : Bool :=
  containsChars s.data pat.data

/-- Python `s.endswith(pat)`. -/
def strEndsWith (s pat : String) : Bool :=
  startsWithChars s.data.reverse pat.data.reverse

/-- Python `s[:-n]` for `0 < n ≤ len(s)`: drop the last `n` characters. -/
def strDropRight (s : String) (n : Nat) : String :=
  String.mk (s.data.take (s.data.length - n))

/-- Python `str.lower()` (ASCII model). -/
def pyLower (s : String) : String :=
  String.mk (s.data.map Char.toLower)

/-- Python `str.strip()` on a character list: drop whitespace from both
ends. -/
def pyStrip (cs : List Char) : List Char :=
  ((cs.dropWhile Char.isWhitespace).reverse.dropWhile Char.isWhitespace).reverse

/-- Python `str.strip()`. -/
def pyStripStr (s : String) : String :=
  String.mk (pyStrip s.data)

/-- Fuelled worker for `replaceChars`: each step consumes at least one
character of the subject, so `s.length` fuel always suffices. -/
def replaceCharsAux (pat rep : List Char) : Nat → List Char → List Char
  | 0, s => s
  | fuel + 1, s =>
    match s with
    | [] => []
    | c :: rest =>
      if startsWithChars (c :: rest) pat then
        rep ++ replaceCharsAux pat rep fuel ((c :: rest).drop pat.length)
      else
        c :: replaceCharsAux pat rep fuel rest

/-- Python `s.replace(pat, rep)`: replace every non-overlapping
occurrence, scanning left to right (all patterns used below are
non-empty). -/
def replaceChars (s pat rep : List Char) : List Char :=
  if pat = [] then s else replaceCharsAux pat rep s.length s

/-- Python `s.replace(pat, rep)` on `String`. -/
def strReplace (s pat rep : String) : String :=
  String.mk (replaceChars s.data pat.data rep.data)

/-- Split a character list on a single separator character (the list of
parts, in order, separators removed). -/
def splitOnCharAux (sep : Char) : List Char → List Char → List (List Char)
  | [], cur => [cur.reverse]
  | c :: cs, cur =>
    if c == sep then cur.reverse :: splitOnCharAux sep cs []
    else splitOnCharAux sep cs (c :: cur)

/-- Split a character list on a separator character. -/
def splitOnChar (sep : Char) (cs : List Char) : List (List Char) :=
  splitOnCharAux sep cs []

/-- One step of Python `str.title()`: upper-case a letter that starts a
letter-run, lower-case subsequent letters, pass other characters through. -/
def pyTitleGo : Bool → List Char → List Char
  | _, [] => []
  | prevAlpha, c :: cs =>
    if c.isAlpha then
      (if prevAlpha then c.toLower else c.toUpper) :: pyTitleGo true cs
    else
      c :: pyTitleGo false cs

/-- Python `str.title()` (ASCII model). -/
def pyTitle (s : String) : String :=
  String.mk (pyTitleGo false s.data)

/-- Python `pathlib.Path(p).name`: the final path component, ignoring
empty components produced by `/` separators (model for plain file paths,
the only inputs the code feeds it). -/
def pathFileName (p : String) : String :=
  String.mk (((splitOnChar '/' p.data).filter (fun c => c ≠ [])).getLastD [])

/-! ### `IconResult` data model (`icon_search.py` lines 25-54) -/

/-- Embeds class `IconResult`: one image search result.  `local_path` is
`none` until a successful download sets it. -/
structure IconResult where
  title : String
  image_url : String
  thumbnail_url : String
  source : String
  width : Int
  height : Int
  local_path : Option String
deriving Repr, DecidableEq

/-- `IconResult.is_square` (lines 56-65): unknown (non-positive)
dimensions count as square; otherwise the aspect ratio `width/height`
must lie in the closed interval `[0.9, 1.1]`. -/
def IconResult.is_square (r : IconResult) : Bool :=
  if r.width ≤ 0 ∨ r.height ≤ 0 then
    true
  else
    decide ((9 : ℚ)/10 ≤ (r.width : ℚ) / (r.height : ℚ)
            ∧ (r.width : ℚ) / (r.height : ℚ) ≤ (11 : ℚ)/10)

/-- Source-based part of `calculate_current_score` (lines 78-90). -/
def scoreSourceBase (r : IconResult) : Int :=
  let title_lower := pyLower r.title
  if r.source = "github" then
    600 + (if strContains title_lower "official repo" ∨ strContains title_lower "primary"
           then 150 else 0)
  else if r.source = "simpleicons" then 550
  else if r.source = "iconify" then 500
  else 0

/-- Positive signals of `calculate_current_score` (lines 92-106). -/
def scorePositive (r : IconResult) : Int :=
  let title_lower := pyLower r.title
  (if strContains title_lower "official" then 100 else 0)
  + (if strContains title_lower "primary" then 80 else 0)
  + (if strContains title_lower "2024" ∨ strContains title_lower "2025"
        ∨ strContains title_lower "2026" then 100 else 0)
  + (if strContains title_lower "current" then 50 else 0)
  + (if strContains title_lower "brand" then 50 else 0)
  + (if r.width ≥ 1024 ∧ r.height ≥ 1024 then 30
     else if r.width ≥ 512 ∧ r.height ≥ 512 then 20 else 0)

/-- Negative signals of `calculate_current_score` (lines 108-120),
as the (non-negative) total to subtract. -/
def scoreNegative (r : IconResult) : Int :=
  let title_lower := pyLower r.title
  (if strContains title_lower "old" then 100 else 0)
  + (if strContains title_lower "legacy" then 100 else 0)
  + (if strContains title_lower "vintage" then 50 else 0)
  + (if strContains title_lower "history" ∨ strContains title_lower "historical"
     then 50 else 0)
  + (if strContains title_lower "retro" then 50 else 0)
  + (if r.width > 0 ∧ r.width < 256 then 20 else 0)

/-- `IconResult.calculate_current_score` (lines 67-122): the sequential
`score += term` statements summed. -/
def IconResult.calculate_current_score (r : IconResult) : Int :=
  scoreSourceBase r + scorePositive r - scoreNegative r

/-- `IconResult.file_type` (lines 124-146). -/
def IconResult.file_type (r : IconResult) : String :=
  let url_lower := pyLower r.image_url
  if strContains url_lower ".svg" ∨ strEndsWith url_lower "svg" then "SVG"
  else if strContains url_lower ".png" ∨ strEndsWith url_lower "png" then "PNG"
  else if strContains url_lower ".jpg" ∨ strContains url_lower ".jpeg" then "JPG"
  else if strContains url_lower ".webp" then "WEBP"
  else if strContains url_lower ".gif" then "GIF"
  else "IMG"

/-- Python `__eq__` can compare an `IconResult` with any value; values
other than `IconResult` are represented by an opaque tag. -/
inductive PyValue where
  | iconResult (r : IconResult)
  | otherValue (tag : String)
deriving Repr, DecidableEq

/-- `IconResult.__eq__` (lines 216-220): `False` for non-`IconResult`
values, otherwise comparison of `image_url` only. -/
def IconResult.pyEq (r : IconResult) (other : PyValue) : Bool :=
  match other with
  | .iconResult s => r.image_url == s.image_url
  | .otherValue _ => false

/-! ### `search_simple_icons` (lines 298-358)

Network model: `headOk slug` tells whether the `HEAD` request on
`https://cdn.simpleicons.org/{slug}` (brace spelled out: the slug is
appended to the CDN base) returns status 200.  A request that raises is
observationally identical to a non-200 answer (both `continue` without
appending), so a `Bool` oracle is a faithful abstraction. -/

/-- The candidate built for an existing SimpleIcons slug (lines 342-351). -/
def simpleIconsResult (slug : String) : IconResult :=
  { title := pyTitle slug ++ " (SimpleIcons)"
    image_url := "https://cdn.simpleicons.org/" ++ slug
    thumbnail_url := "https://cdn.simpleicons.org/" ++ slug
    source := "simpleicons"
    width := 512
    height := 512
    local_path := none }

/-- The slug variations tried (lines 322-327); `none` stands for Python
`None` entries (which terminate the loop when reached). -/
def simpleIconsVariations (slug : String) : List (Option String) :=
  [some slug,
   if strContains slug "vs" then some (strReplace slug "vs" "visualstudio") else none,
   if strContains slug "code" then some (strReplace slug "code" "") else none]

/-- The `for slug in variations` loop (lines 329-353): break on a falsy
slug or once `limit` results are accumulated; append one candidate per
slug whose existence check succeeds. -/
def simpleIconsLoop (headOk : String → Bool) (limit : Nat) :
    List (Option String) → List IconResult → List IconResult
  | [], acc => acc
  | v :: rest, acc =>
    match v with
    | none => acc
    | some slug =>
      if slug = "" ∨ acc.length ≥ limit then acc
      else if headOk slug then
        simpleIconsLoop headOk limit rest (acc ++ [simpleIconsResult slug])
      else
        simpleIconsLoop headOk limit rest acc

/-- `search_simple_icons(app_name, limit)` (lines 298-358). -/
def search_simple_icons (headOk : String → Bool) (app_name : String) (limit : Nat) :
    List IconResult :=
  if app_name = "" ∨ pyStripStr app_name = "" then []
  else
    let search_slug := strReplace (strReplace (pyLower (pyStripStr app_name)) " " "") "-" ""
    simpleIconsLoop headOk limit (simpleIconsVariations search_slug) []

/-! ### `search_iconify` (lines 223-295)

Network model: `api iconSet term` is the `icons` list of the JSON answer
for the catalog search of `term` restricted to `iconSet` (the request URL
itself always carries `limit=5`).  A failing or non-200 request behaves
exactly like an empty `icons` list (the loop appends nothing either way),
so a plain list-valued oracle is faithful. -/

/-- The candidate built from one `namespaceColon`-style icon token
(lines 264-279). -/
def iconifyResult (icon_name : String) : IconResult :=
  { title := pyTitle (strReplace (strReplace icon_name "-" " ") ":" ": ") ++ " (Official)"
    image_url := "https://api.iconify.design/" ++ icon_name ++ ".svg"
    thumbnail_url := "https://api.iconify.design/" ++ icon_name ++ ".svg"
    source := "iconify"
    width := 512
    height := 512
    local_path := none }

/-- Inner loop over `icons[:limit]` (lines 264-282): append each icon,
breaking once `limit` results exist. -/
def iconifyAppend (limit : Nat) : List String → List IconResult → List IconResult
  | [], acc => acc
  | nm :: rest, acc =>
    let acc2 := acc ++ [iconifyResult nm]
    if acc2.length ≥ limit then acc2 else iconifyAppend limit rest acc2

/-- The fixed icon-set priority list (lines 245-250). -/
def iconifySets : List String := ["logos", "simple-icons", "mdi", "fa"]

/-- Outer loop over the icon sets (lines 254-289). -/
def iconifyLoop (api : String → String → List String) (search_term : String)
    (limit : Nat) : List String → List IconResult → List IconResult
  | [], acc => acc
  | st :: rest, acc =>
    let acc2 := iconifyAppend limit ((api st search_term).take limit) acc
    if acc2.length ≥ limit then acc2 else iconifyLoop api search_term limit rest acc2

/-- `search_iconify(app_name, limit)` (lines 223-295). -/
def search_iconify (api : String → String → List String) (app_name : String)
    (limit : Nat) : List IconResult :=
  if app_name = "" ∨ pyStripStr app_name = "" then []
  else
    let search_term := strReplace (pyLower (pyStripStr app_name)) " " "-"
    iconifyLoop api search_term limit iconifySets []

/-! ### `search_images_duckduckgo` (lines 370-448) -/

/-- One raw hit from the web image-search provider.  Fields are `Option`
because the Python code reads them with `dict.get` defaults. -/
structure DdgHit where
  title : Option String
  image : Option String
  thumbnail : Option String
  width : Option Int
  height : Option Int
deriving Repr, DecidableEq

/-- Web-search environment: `available` is `DDGS_AVAILABLE`, `initOk`
models whether constructing the provider object raises, and `run q n`
is the provider's answer to sub-query `q` with `max_results = n`
(`Except.error` models a raised exception). -/
structure DdgEnv where
  available : Bool
  initOk : Bool
  run : String → Nat → Except Unit (List DdgHit)

/-- Wrap one raw hit as a candidate (lines 416-432). -/
def ddgResult (h : DdgHit) (image_url : String) : IconResult :=
  { title := h.title.getD "Unknown"
    image_url := image_url
    thumbnail_url := h.thumbnail.getD image_url
    source := "duckduckgo"
    width := h.width.getD 0
    height := h.height.getD 0
    local_path := none }

/-- Per-hit processing (lines 408-432): cross-sub-query deduplication by
the reported URL, discarding hits whose URL is empty. -/
def ddgProcessHits : List DdgHit → List IconResult → List String →
    List IconResult × List String
  | [], acc, seen => (acc, seen)
  | h :: rest, acc, seen =>
    let image_url := h.image.getD ""
    if image_url ∈ seen then ddgProcessHits rest acc seen
    else
      let acc2 := if image_url ≠ "" then acc ++ [ddgResult h image_url] else acc
      ddgProcessHits rest acc2 (image_url :: seen)

/-- The four phrased sub-queries (lines 392-397). -/
def ddgQueries (s : String) : List String :=
  [s ++ " official logo", s ++ " logo 2024", s ++ " brand icon", s ++ " icon"]

/-- The sub-query loop (lines 404-435): a raising sub-query is skipped,
the remaining sub-queries still run. -/
def ddgCollect (env : DdgEnv) (maxResults : Nat) :
    List String → List IconResult → List String → List IconResult × List String
  | [], acc, seen => (acc, seen)
  | q :: qs, acc, seen =>
    match env.run q maxResults with
    | .error _ => ddgCollect env maxResults qs acc seen
    | .ok hits =>
      let p := ddgProcessHits hits acc seen
      ddgCollect env maxResults qs p.1 p.2

/-- Stable insertion step for the descending sort by
`calculate_current_score`: a new element passes an existing one only on a
strictly greater score, so ties keep their original order (Python's
`list.sort(key=..., reverse=True)` is stable). -/
def insertByScoreDesc (x : IconResult) : List IconResult → List IconResult
  | [] => [x]
  | y :: ys =>
    if y.calculate_current_score < x.calculate_current_score then x :: y :: ys
    else y :: insertByScoreDesc x ys

/-- Stable sort by `calculate_current_score` descending. -/
def sortByScoreDesc (l : List IconResult) : List IconResult :=
  l.foldl (fun acc x => insertByScoreDesc x acc) []

/-- `search_images_duckduckgo(query, limit)` (lines 370-448). -/
def search_images_duckduckgo (env : DdgEnv) (query : String) (limit : Nat) :
    List IconResult :=
  if query = "" ∨ pyStripStr query = "" then []
  else if env.available = false then []
  else if env.initOk = false then []
  else
    let all_results := (ddgCollect env (limit * 2) (ddgQueries (pyStripStr query)) [] []).1
    let square_results := all_results.filter (fun r => r.is_square)
    (sortByScoreDesc square_results).take limit

/-! ### `extract_search_term` (lines 451-475) and `search_icons` (lines 478-543) -/

/-- The extension list of lines 470-472. -/
def knownExecExts : List String := [".sh", ".py", ".bin", ".exe", ".AppImage"]

/-- The extension-stripping loop of lines 470-472: each extension of the
fixed list is tested in order against the *current* filename and stripped
when it is a suffix, so several extensions can be removed in sequence. -/
def stripKnownExts (f : String) : String :=
  knownExecExts.foldl
    (fun acc ext => if strEndsWith acc ext then strDropRight acc ext.length else acc) f

/-- `extract_search_term(name, exec_path)` (lines 451-475). -/
def extract_search_term (name exec_path : String) : String :=
  if name ≠ "" ∧ pyStripStr name ≠ "" then pyStripStr name
  else if exec_path ≠ "" ∧ pyStripStr exec_path ≠ "" then
    stripKnownExts (pathFileName exec_path)
  else ""

/-- Line 505, `query or extract_search_term(name, exec_path)`: the raw
`query` is used whenever it is a non-empty string (Python truthiness —
no trimming), otherwise the term extracted from `name`/`exec_path`. -/
def searchTermOf (query name exec_path : String) : String :=
  if query ≠ "" then query else extract_search_term name exec_path

/-- Combined environment of the three orchestrated sources. -/
structure SearchEnv where
  simpleHeadOk : String → Bool
  iconifyApi : String → String → List String
  ddg : DdgEnv

/-- The per-phase appending loop of lines 515-518 / 522-525 / 534-537:
append each candidate whose `image_url` has not been seen, recording seen
URLs. -/
def dedupAppendLoop : List IconResult → List IconResult → List String →
    List IconResult × List String
  | [], acc, seen => (acc, seen)
  | r :: rest, acc, seen =>
    if r.image_url ∈ seen then dedupAppendLoop rest acc seen
    else dedupAppendLoop rest (acc ++ [r]) (r.image_url :: seen)

/-- `search_icons(query, name, exec_path, limit)` (lines 478-543),
with `include_github` left at its default `False` (the GitHub phase is
absent from the function body). -/
def search_icons (env : SearchEnv) (query name exec_path : String) (limit : Nat) :
    List IconResult :=
  let search_term := searchTermOf query name exec_path
  if search_term = "" then []
  else
    let p1 := dedupAppendLoop (search_simple_icons env.simpleHeadOk search_term 5) [] []
    let p2 := dedupAppendLoop (search_iconify env.iconifyApi search_term 8) p1.1 p1.2
    let p3 :=
      if limit - p2.1.length > 0 then
        (dedupAppendLoop
          (search_images_duckduckgo env.ddg search_term (max ((limit - p2.1.length) * 2) 10))
          p2.1 p2.2).1
      else p2.1
    (sortByScoreDesc p3).take limit

/-! ### `IconResult.download_image` (lines 162-210)

Environment model: `fetch url` is the fetched byte content (`none` models
a network error / bad HTTP status), `writeOk path` tells whether writing
the file succeeds, and `tmpdir` is the system temp directory. -/

structure DownloadEnv where
  fetch : String → Option (List Nat)
  writeOk : String → Bool
  tmpdir : String

/-- Extension inference of lines 177-182: the lowercased segment after
the last dot of the URL (query string removed), when it is one of the
known image extensions; `.png` otherwise. -/
def inferExt (url : String) : String :=
  if url = "" then ".png"
  else
    let noQuery := url.data.takeWhile (fun c => c ≠ '?')
    let url_ext := String.mk (((splitOnChar '.' noQuery).getLastD []).map Char.toLower)
    if url_ext ∈ ["jpg", "jpeg", "png", "gif", "svg", "webp"] then "." ++ url_ext
    else ".png"

/-- A character kept by the filename sanitisation of lines 185-187
(ASCII model of `str.isalnum`). -/
def safeChar (c : Char) : Prop :=
  c.isAlphanum ∨ c = ' ' ∨ c = '-' ∨ c = '_'

instance : DecidablePred safeChar := fun c => by unfold safeChar; infer_instance

/-- Filename sanitisation of lines 184-187: keep alphanumeric, space,
dash and underscore characters, strip surrounding whitespace, truncate
to 50 characters. -/
def safeTitle (title : String) : String :=
  String.mk ((pyStrip (title.data.filter (fun c => decide (safeChar c)))).take 50)

/-- The full path the download would write to. -/
def downloadPath (env : DownloadEnv) (r : IconResult) (target_dir : Option String) :
    String :=
  (target_dir.getD env.tmpdir) ++ "/" ++ safeTitle r.title ++ inferExt r.image_url

/-- `IconResult.download_image(target_dir)` (lines 162-210): returns the
written path and the updated result on success; on any error returns
`none` with `local_path` untouched. -/
def download_image (env : DownloadEnv) (r : IconResult) (target_dir : Option String) :
    Option String × IconResult :=
  let path := downloadPath env r target_dir
  match env.fetch r.image_url with
  | none => (none, r)
  | some _bytes =>
    if env.writeOk path then (some path, { r with local_path := some path })
    else (none, r)

/-! ### Claim-side (spec-worded) definitions, for comparison with the source

Each `...Claim...` definition below transcribes the words of a claim of
the specification, to be compared with the corresponding definition
transcribed from the source; `...Amended...` definitions transcribe the
amended wording. -/

/-- Claim C6's wording of squareness: `width == 0 or height == 0`, or the
ratio lies in the closed interval `[0.9, 1.1]`. -/
def isSquareClaimC6 (w h : Int) : Bool :=
  decide (w = 0 ∨ h = 0
          ∨ ((9 : ℚ)/10 ≤ (w : ℚ) / (h : ℚ) ∧ (w : ℚ) / (h : ℚ) ≤ (11 : ℚ)/10))

/-- Amended C6 wording: `width ≤ 0 or height ≤ 0`, or the ratio lies in
the closed interval `[0.9, 1.1]`. -/
def isSquareAmendedC6 (w h : Int) : Bool :=
  decide (w ≤ 0 ∨ h ≤ 0
          ∨ ((9 : ℚ)/10 ≤ (w : ℚ) / (h : ℚ) ∧ (w : ℚ) / (h : ℚ) ≤ (11 : ℚ)/10))

/-- Claim C10's wording of `file_type`: the first of the dotted extension
substrings `.svg .png .jpg .webp .gif` occurring anywhere in the
lowercased URL, in that order, else `IMG`. -/
def fileTypeClaimC10 (url : String) : String :=
  let url_lower := pyLower url
  if strContains url_lower ".svg" then "SVG"
  else if strContains url_lower ".png" then "PNG"
  else if strContains url_lower ".jpg" then "JPG"
  else if strContains url_lower ".webp" then "WEBP"
  else if strContains url_lower ".gif" then "GIF"
  else "IMG"

/-- Amended C10 wording: as the claim, except that a URL merely *ending*
in `svg` (resp. `png`) also selects `SVG` (resp. `PNG`), and the `JPG`
test also accepts the substring `.jpeg`. -/
def fileTypeAmendedC10 (url : String) : String :=
  let url_lower := pyLower url
  if strContains url_lower ".svg" ∨ strEndsWith url_lower "svg" then "SVG"
  else if strContains url_lower ".png" ∨ strEndsWith url_lower "png" then "PNG"
  else if strContains url_lower ".jpg" ∨ strContains url_lower ".jpeg" then "JPG"
  else if strContains url_lower ".webp" then "WEBP"
  else if strContains url_lower ".gif" then "GIF"
  else "IMG"

/-- Claim C5's wording of extension stripping: exactly one trailing
extension of the known set is removed. -/
def stripOneExtClaimC5 (f : String) : String :=
  match knownExecExts.find? (fun ext => strEndsWith f ext) with
  | some ext => strDropRight f ext.length
  | none => f

/-- Claim C5's wording of search-term resolution: the query when
non-empty after trimming, else the trimmed name when non-empty, else the
`exec_path` filename with one trailing known extension stripped, else
empty. -/
def resolveTermClaimC5 (query name exec_path : String) : String :=
  if pyStripStr query ≠ "" then query
  else if pyStripStr name ≠ "" then pyStripStr name
  else if pyStripStr exec_path ≠ "" then stripOneExtClaimC5 (pathFileName exec_path)
  else ""

/-- The conjunction of negative lexical title signals of claim C4
(case-insensitive substring tests, lines 108-118 of the source). -/
def hasNegativeSignal (title : String) : Bool :=
  let title_lower := pyLower title
  strContains title_lower "old" || strContains title_lower "legacy"
  || strContains title_lower "vintage" || strContains title_lower "history"
  || strContains title_lower "historical" || strContains title_lower "retro"

/-! ### Concrete fixtures used by witnesses and counterexamples -/

/-- An environment in which every source is disabled or empty. -/
def nullSearchEnv : SearchEnv :=
  { simpleHeadOk := fun _ => false
    iconifyApi := fun _ _ => []
    ddg := { available := false, initOk := false, run := fun _ _ => .error () } }

/-- The environment of claim C2's scenario: the curated-brand CDN has the
slug `firefox`, the catalog answers `logos:firefox` for the `logos` set
and `simple-icons:firefox` for the `simple-icons` set, and the web-search
provider is disabled and raising. -/
def c2Env : SearchEnv :=
  { simpleHeadOk := fun slug => slug == "firefox"
    iconifyApi := fun iconSet q =>
      if iconSet == "logos" && q == "firefox" then ["logos:firefox"]
      else if iconSet == "simple-icons" && q == "firefox" then ["simple-icons:firefox"]
      else []
    ddg := { available := false, initOk := true, run := fun _ _ => .error () } }

/-- An environment in which the catalog has three `logos` icons, three
`simple-icons` icons and two `mdi` icons for `firefox` (at most five per
set, as the catalog request's own URL caps each set's answer at five),
while the other sources are empty or disabled. -/
def c3Env : SearchEnv :=
  { simpleHeadOk := fun _ => false
    iconifyApi := fun iconSet q =>
      if q == "firefox" then
        if iconSet == "logos" then ["a1", "a2", "a3"]
        else if iconSet == "simple-icons" then ["b1", "b2", "b3"]
        else if iconSet == "mdi" then ["c1", "c2"]
        else []
      else []
    ddg := { available := false, initOk := true, run := fun _ _ => .error () } }

/-- Web-search environment whose provider module is absent. -/
def unavailableDdgEnv : DdgEnv :=
  { available := false, initOk := true, run := fun _ _ => .ok [] }

/-- Web-search environment whose every sub-query raises. -/
def failingDdgEnv : DdgEnv :=
  { available := true, initOk := true, run := fun _ _ => .error () }

/-- Replace every raising sub-query of a web-search environment by one
returning no hits. -/
def normalizeDdgEnv (env : DdgEnv) : DdgEnv :=
  { env with run := fun q n =>
      match env.run q n with
      | .error _ => .ok []
      | .ok hits => .ok hits }

/-- Download environment in which fetching and writing succeed. -/
def dlEnvOk : DownloadEnv :=
  { fetch := fun _ => some [137, 80, 78, 71], writeOk := fun _ => true, tmpdir := "/tmp" }

/-- Download environment in which every fetch fails. -/
def dlEnvFail : DownloadEnv :=
  { fetch := fun _ => none, writeOk := fun _ => true, tmpdir := "/tmp" }

/-- A plain web-search candidate used by download witnesses. -/
def sampleDlResult : IconResult :=
  { title := "Firefox Icon", image_url := "https://example.com/firefox.png"
    thumbnail_url := "https://example.com/thumb.png", source := "duckduckgo"
    width := 0, height := 0, local_path := none }

/-- A candidate with a negative reported width (claim C6). -/
def negWidthResult : IconResult :=
  { title := "t", image_url := "u", thumbnail_url := "v", source := "duckduckgo"
    width := -1, height := 1, local_path := none }

/-- A 900x1000 candidate (claim C6 boundary). -/
def square900Result : IconResult :=
  { title := "t", image_url := "u", thumbnail_url := "v", source := "duckduckgo"
    width := 900, height := 1000, local_path := none }

/-- An 899x1000 candidate (claim C6 boundary). -/
def square899Result : IconResult :=
  { title := "t", image_url := "u", thumbnail_url := "v", source := "duckduckgo"
    width := 899, height := 1000, local_path := none }

/-- A catalog-tagged candidate with a low-resolution width and no
negative title signal (claim C4). -/
def lowResCatalogResult : IconResult :=
  { title := "Firefox catalog icon", image_url := "u", thumbnail_url := "u"
    source := "iconify", width := 100, height := 512, local_path := none }

/-- A candidate whose URL ends in `svg` without a preceding dot
(claim C10). -/
def svgTailResult : IconResult :=
  { title := "t", image_url := "http://a/iconsvg", thumbnail_url := "v"
    source := "duckduckgo", width := 0, height := 0, local_path := none }

/-- A candidate with a `.jpeg` URL (claim C10). -/
def jpegTailResult : IconResult :=
  { title := "t", image_url := "http://a/b.jpeg", thumbnail_url := "v"
    source := "duckduckgo", width := 0, height := 0, local_path := none }

/-- A candidate whose URL contains `.svg` but ends in `.png`
(claim C10). -/
def svgOverPngResult : IconResult :=
  { title := "t", image_url := "http://x/a.svg.png", thumbnail_url := "v"
    source := "duckduckgo", width := 0, height := 0, local_path := none }

/-! ### Theorems -/

/-- Claim C9: `IconResult` equality is determined solely by `image_url` —
two results with equal URLs compare equal whatever their other fields,
two results with different URLs compare unequal, and an `IconResult`
never compares equal to a non-`IconResult` value. -/
theorem claim_c9 :
    (∀ r s : IconResult, r.image_url = s.image_url → r.pyEq (.iconResult s) = true)
    ∧ (∀ r s : IconResult, r.image_url ≠ s.image_url → r.pyEq (.iconResult s) = false)
    ∧ (∀ (r : IconResult) (t : String), r.pyEq (.otherValue t) = false) := by
  refine ⟨?_, ?_, ?_⟩
  · intro r s h
    simp [IconResult.pyEq, h]
  · intro r s h
    simp [IconResult.pyEq, h]
  · intro r t
    rfl

/-- Witness for claim C9: two candidates sharing a URL but differing in
title, thumbnail, source, width and height compare equal; a different URL
or a non-`IconResult` value compares unequal. -/
theorem claim_c9_witness :
    (IconResult.mk "a" "https://e.com/i.png" "t1" "iconify" 1 2 none).pyEq
      (.iconResult (IconResult.mk "b" "https://e.com/i.png" "t2" "duckduckgo" 3 4 none)) = true
    ∧ (IconResult.mk "a" "https://e.com/i.png" "t1" "iconify" 1 2 none).pyEq
      (.iconResult (IconResult.mk "a" "https://e.com/j.png" "t1" "iconify" 1 2 none)) = false
    ∧ (IconResult.mk "a" "https://e.com/i.png" "t1" "iconify" 1 2 none).pyEq
      (.otherValue "firefox") = false :=
  ⟨claim_c9.1 _ _ (by decide),
   claim_c9.2.1 _ _ (by decide),
   claim_c9.2.2 _ "firefox"⟩

/-- Counterexample to claim C10 as stated: `file_type` is not pure
first-matching-dotted-substring classification — a URL ending in `svg`
with no dot before it is classified `SVG` (the code also tests
`endswith`), and a `.jpeg` URL is classified `JPG`, while the claimed
rule yields `IMG` in both cases. -/
theorem claim_c10_counterexample :
    svgTailResult.file_type = "SVG" ∧ fileTypeClaimC10 svgTailResult.image_url = "IMG"
    ∧ jpegTailResult.file_type = "JPG" ∧ fileTypeClaimC10 jpegTailResult.image_url = "IMG" := by
  decide

/-- Claim C10 (amended): `file_type` tests, in the fixed order SVG, PNG,
JPG, WEBP, GIF, for the dotted extension substring anywhere in the
lowercased URL — additionally accepting a URL that merely ends in `svg`
(resp. `png`) for SVG (resp. PNG) and the substring `.jpeg` for JPG —
returning `IMG` when nothing matches; in particular a URL containing
`.svg` anywhere but ending in `.png` is classified `SVG`, not `PNG`. -/
theorem claim_c10 :
    (∀ r : IconResult, r.file_type = fileTypeAmendedC10 r.image_url)
    ∧ svgOverPngResult.file_type = "SVG" :=
  ⟨fun _ => rfl, by decide⟩

/-- Counterexample to claim C6 as stated: the code treats *negative*
dimensions as square (it tests `width <= 0`, not `width == 0`), so a
candidate with `width = -1, height = 1` is square although the claimed
rule makes it non-square. -/
theorem claim_c6_counterexample :
    negWidthResult.is_square = true
    ∧ isSquareClaimC6 negWidthResult.width negWidthResult.height = false := by
  constructor
  · rw [negWidthResult, IconResult.is_square]
    norm_num
  · rw [negWidthResult, isSquareClaimC6]
    norm_num

/-- Claim C6 (amended): `is_square` is true exactly when `width ≤ 0` or
`height ≤ 0`, or the ratio `width/height` lies in the closed interval
`[0.9, 1.1]`; the boundary is inclusive — 900x1000 is square and
899x1000 is not. -/
theorem claim_c6 :
    (∀ r : IconResult, r.is_square = isSquareAmendedC6 r.width r.height)
    ∧ square900Result.is_square = true
    ∧ square899Result.is_square = false := by
  refine ⟨?_, ?_, ?_⟩
  · intro r
    unfold IconResult.is_square isSquareAmendedC6
    by_cases h : r.width ≤ 0 ∨ r.height ≤ 0
    · rw [if_pos h]
      symm
      rw [decide_eq_true_eq]
      tauto
    · rw [if_neg h]
      push_neg at h
      have e1 : ¬ (r.width ≤ 0) := by omega
      have e2 : ¬ (r.height ≤ 0) := by omega
      rw [decide_eq_decide]
      tauto
  · rw [square900Result, IconResult.is_square]
    norm_num
  · rw [square899Result, IconResult.is_square]
    norm_num

/-- Counterexample to claim C2 as stated: in the claim's own scenario the
result's first candidate comes from the catalog (`iconify`), not from the
curated-brand source — the catalog titles end in `(Official)`, earning
+100 on top of the 500 base and +20 for 512x512, so both catalog
candidates score 620 while the curated-brand candidate scores 570. -/
theorem claim_c2_counterexample :
    (search_icons c2Env "" "Firefox" "" 5).head?.map (fun r => r.source) = some "iconify"
    ∧ (search_icons c2Env "" "Firefox" "" 5).head?.map (fun r => r.source)
        ≠ some "simpleicons" := by
  decide

/-- Claim C2 (amended): in the scenario — curated-brand source matching
slug `firefox`, catalog source returning `logos:firefox` and
`simple-icons:firefox`, web search disabled — `search_icons(name =
"Firefox", limit = 5)` returns exactly 3 candidates, all scoring at least
500, ordered with the two catalog candidates (score 620 each) before the
curated-brand candidate (score 570). -/
theorem claim_c2 :
    (search_icons c2Env "" "Firefox" "" 5).length = 3
    ∧ (search_icons c2Env "" "Firefox" "" 5).all
        (fun r => decide (500 ≤ r.calculate_current_score)) = true
    ∧ (search_icons c2Env "" "Firefox" "" 5).map
        (fun r => (r.source, r.calculate_current_score))
      = [("iconify", 620), ("iconify", 620), ("simpleicons", 570)] := by
  refine ⟨by decide, by decide, by decide⟩

/-- Claim C3 evaluation: the orchestrator's catalog phase runs with an
internal limit of 8, not the claimed 5 — with at most five icons
available per catalog set (3 + 3 + 2 across the first three sets) and
the other sources empty, `search_icons(name = "firefox", limit = 10)`
returns 8 catalog candidates, which the claimed internal limit of 5
would make impossible.  (The repository's own tests assert the claimed
limits 3 and 5; the code passes 5 and 8.) -/
theorem claim_c3 :
    (search_icons c3Env "" "firefox" "" 10).length = 8
    ∧ (search_icons c3Env "" "firefox" "" 10).all
        (fun r => r.source == "iconify") = true := by
  constructor
  · decide
  · decide

/-- Counterexample to claim C5 as stated: the orchestrator uses the raw
`query` by Python truthiness, not after trimming — a whitespace-only
query is used verbatim instead of falling back to the name — and the
extension stripping is sequential over the fixed list, so more than one
trailing extension can be removed. -/
theorem claim_c5_counterexample :
    resolveTermClaimC5 "   " "Firefox" "" = "Firefox"
    ∧ searchTermOf "   " "Firefox" "" = "   "
    ∧ resolveTermClaimC5 "" "" "/a/x.exe.sh" = "x.exe"
    ∧ searchTermOf "" "" "/a/x.exe.sh" = "x" := by
  refine ⟨by decide, by decide, by decide, by decide⟩

/-- Claim C5 (amended): the search term is the raw `query` whenever
`query` is a non-empty string (no trimming); otherwise the trimmed
`name` when non-empty; otherwise `exec_path`'s filename with trailing
extensions among `.sh .py .bin .exe .AppImage` stripped sequentially in
that order (so several may be removed); `exec_path =
"/home/u/MyApp-1.0.AppImage"` resolves to `MyApp-1.0` with no
dash-splitting; and when the resolved term is empty, `search_icons`
returns the empty list whatever the sources hold. -/
theorem claim_c5 (env : SearchEnv) (q n e : String) (limit : Nat) :
    (q ≠ "" → searchTermOf q n e = q)
    ∧ (q = "" → pyStripStr n ≠ "" → searchTermOf q n e = pyStripStr n)
    ∧ (q = "" → pyStripStr n = "" → pyStripStr e ≠ "" →
        searchTermOf q n e = stripKnownExts (pathFileName e))
    ∧ (q = "" → pyStripStr n = "" → pyStripStr e = "" → searchTermOf q n e = "")
    ∧ extract_search_term "" "/home/u/MyApp-1.0.AppImage" = "MyApp-1.0"
    ∧ (searchTermOf q n e = "" → search_icons env q n e limit = []) := by
  refine ⟨?_, ?_, ?_, ?_, by decide, ?_⟩
  · intro hq
    rw [searchTermOf, if_pos hq]
  · intro hq hn
    have hne : n ≠ "" := by
      intro h
      rw [h] at hn
      exact hn rfl
    rw [searchTermOf, if_neg (by simp [hq]), extract_search_term, if_pos ⟨hne, hn⟩]
  · intro hq hn he
    have hee : e ≠ "" := by
      intro h
      rw [h] at he
      exact he rfl
    rw [searchTermOf, if_neg (by simp [hq]), extract_search_term,
        if_neg (by simp [hn]), if_pos ⟨hee, he⟩]
  · intro hq hn he
    rw [searchTermOf, if_neg (by simp [hq]), extract_search_term,
        if_neg (by simp [hn]), if_neg (by simp [he])]
  · intro ht
    rw [search_icons]
    simp only [ht]
    rfl

/-- Witness for claim C5: a non-empty query is used verbatim, and empty
inputs produce the empty result against a live environment. -/
theorem claim_c5_witness :
    searchTermOf "custom search" "Firefox" "/usr/bin/firefox" = "custom search"
    ∧ search_icons c2Env "" "" "" 7 = [] :=
  ⟨(claim_c5 c2Env "custom search" "Firefox" "/usr/bin/firefox" 7).1 (by decide),
   (claim_c5 c2Env "" "" "" 7).2.2.2.2.2 (by decide)⟩

/-- Counterexample to claim C4 as stated: a catalog-tagged candidate with
no negative title signal but a reported width of 100 pixels receives the
low-resolution penalty (−20) and scores 480 < 500. -/
theorem claim_c4_counterexample :
    lowResCatalogResult.source = "iconify"
    ∧ hasNegativeSignal lowResCatalogResult.title = false
    ∧ lowResCatalogResult.calculate_current_score = 480 := by
  refine ⟨rfl, by decide, by decide⟩

/-- Claim C4 (amended): every `IconResult` tagged `simpleicons` or
`iconify` whose title has none of the negative lexical signals and whose
width does not trigger the low-resolution penalty (width ≤ 0 or
width ≥ 256) scores at least 500; and scores in general are not bounded
below by 0. -/
theorem claim_c4 :
    (∀ r : IconResult, r.source = "simpleicons" ∨ r.source = "iconify" →
      hasNegativeSignal r.title = false →
      r.width ≤ 0 ∨ 256 ≤ r.width →
      500 ≤ r.calculate_current_score)
    ∧ (∃ r : IconResult, r.calculate_current_score < 0) := by
  constructor
  · intro r hsrc hneg hw
    simp only [hasNegativeSignal, Bool.or_eq_false_iff] at hneg
    obtain ⟨⟨⟨⟨⟨h1, h2⟩, h3⟩, h4⟩, h5⟩, h6⟩ := hneg
    have hbase : scoreSourceBase r = 550 ∨ scoreSourceBase r = 500 := by
      rcases hsrc with h | h
      · left
        simp [scoreSourceBase, h]
      · right
        simp [scoreSourceBase, h]
    have hpos : 0 ≤ scorePositive r := by
      rw [scorePositive]
      split_ifs <;> omega
    have hnegz : scoreNegative r = 0 := by
      rw [scoreNegative]
      simp only [h1, h2, h3, h4, h5, h6]
      norm_num
      omega
    rw [IconResult.calculate_current_score, hnegz]
    omega
  · refine ⟨{ title := "old legacy vintage history retro", image_url := "u"
              thumbnail_url := "u", source := "duckduckgo", width := 100, height := 100
              local_path := none }, ?_⟩
    decide

/-- Witness for claim C4: the curated-brand candidate built for slug
`firefox` (source `simpleicons`, width 512, clean title) scores at least
500. -/
theorem claim_c4_witness :
    500 ≤ (simpleIconsResult "firefox").calculate_current_score :=
  claim_c4.1 (simpleIconsResult "firefox") (by decide) (by decide) (by decide)

/-- Stripping surrounding whitespace keeps only characters of the input. -/
theorem pyStrip_subset (cs : List Char) : pyStrip cs ⊆ cs := by
  intro c hc
  rw [pyStrip, List.mem_reverse] at hc
  have hc2 := (List.dropWhile_sublist _).subset hc
  rw [List.mem_reverse] at hc2
  exact (List.dropWhile_sublist _).subset hc2

/-- Claim C8: `download_image` infers the extension from the URL's
trailing segment (one of the six known image extensions, `.png` by
default), writes to `target_dir / (sanitised-title + extension)` — the
sanitised title being at most 50 characters, all alphanumeric, space,
dash or underscore — returns the written path and sets `local_path` on
success, and on any fetch or write failure returns nothing with
`local_path` untouched. -/
theorem claim_c8 (env : DownloadEnv) (r : IconResult) (tdir : Option String) :
    ((env.fetch r.image_url).isSome = true →
      env.writeOk (downloadPath env r tdir) = true →
      download_image env r tdir
        = (some (downloadPath env r tdir),
           { r with local_path := some (downloadPath env r tdir) }))
    ∧ (env.fetch r.image_url = none ∨ env.writeOk (downloadPath env r tdir) = false →
      download_image env r tdir = (none, r))
    ∧ (inferExt r.image_url = ".png"
       ∨ ∃ ex ∈ ["jpg", "jpeg", "png", "gif", "svg", "webp"],
           inferExt r.image_url = "." ++ ex)
    ∧ (safeTitle r.title).length ≤ 50
    ∧ (∀ c ∈ (safeTitle r.title).data, safeChar c) := by
  refine ⟨?_, ?_, ?_, ?_, ?_⟩
  · intro hf hw
    cases hfe : env.fetch r.image_url with
    | none => rw [hfe] at hf; simp at hf
    | some bs => simp [download_image, hfe, hw]
  · intro h
    rcases h with hf | hw
    · simp [download_image, hf]
    · cases hfe : env.fetch r.image_url with
      | none => simp [download_image, hfe]
      | some bs => simp [download_image, hfe, hw]
  · rw [inferExt]
    by_cases hu : r.image_url = ""
    · simp [hu]
    · rw [if_neg hu]
      dsimp only
      split_ifs with hm
      · exact Or.inr ⟨_, hm, rfl⟩
      · exact Or.inl rfl
  · exact List.length_take_le 50 _
  · intro c hc
    have hc1 : c ∈ pyStrip (r.title.data.filter (fun c => decide (safeChar c))) :=
      List.mem_of_mem_take hc
    have hc2 := pyStrip_subset _ hc1
    rw [List.mem_filter] at hc2
    exact of_decide_eq_true hc2.2

/-- Witness for claim C8: against an environment whose fetch and write
succeed, the path is returned and `local_path` is set; when the fetch
fails, nothing is returned and the candidate is unchanged. -/
theorem claim_c8_witness :
    download_image dlEnvOk sampleDlResult none
      = (some (downloadPath dlEnvOk sampleDlResult none),
         { sampleDlResult with
             local_path := some (downloadPath dlEnvOk sampleDlResult none) })
    ∧ download_image dlEnvFail sampleDlResult none = (none, sampleDlResult) :=
  ⟨(claim_c8 dlEnvOk sampleDlResult none).1 (by decide) (by decide),
   (claim_c8 dlEnvFail sampleDlResult none).2.1 (Or.inl rfl)⟩

/-- A sub-query loop in which every sub-query raises accumulates
nothing. -/
theorem ddgCollect_all_errors (env : DdgEnv) (maxResults : Nat)
    (h : ∀ q n, env.run q n = .error ()) :
    ∀ (qs : List String) (acc : List IconResult) (seen : List String),
      ddgCollect env maxResults qs acc seen = (acc, seen) := by
  intro qs
  induction qs with
  | nil => intro acc seen; rfl
  | cons q rest ih =>
    intro acc seen
    rw [ddgCollect, h q maxResults]
    exact ih acc seen

/-- Replacing every raising sub-query by one returning no hits does not
change what the sub-query loop accumulates. -/
theorem ddgCollect_normalize (env : DdgEnv) (maxResults : Nat) :
    ∀ (qs : List String) (acc : List IconResult) (seen : List String),
      ddgCollect (normalizeDdgEnv env) maxResults qs acc seen
        = ddgCollect env maxResults qs acc seen := by
  intro qs
  induction qs with
  | nil => intro acc seen; rfl
  | cons q rest ih =>
    intro acc seen
    cases hr : env.run q maxResults with
    | error e =>
      rw [ddgCollect, ddgCollect, hr]
      have hn : (normalizeDdgEnv env).run q maxResults = .ok [] := by
        simp [normalizeDdgEnv, hr]
      rw [hn]
      exact ih acc seen
    | ok hits =>
      rw [ddgCollect, ddgCollect, hr]
      have hn : (normalizeDdgEnv env).run q maxResults = .ok hits := by
        simp [normalizeDdgEnv, hr]
      rw [hn]
      exact ih _ _

/-- Claim C7: when the web image-search provider is unavailable, or every
one of the four phrased sub-queries raises, `search_images_duckduckgo`
returns the empty list (its type already rules out propagating an
exception); and a raising sub-query contributes exactly zero results —
replacing each raising sub-query by one returning no hits leaves the
output unchanged, so the remaining sub-queries still run. -/
theorem claim_c7 (env : DdgEnv) (query : String) (limit : Nat) :
    (env.available = false → search_images_duckduckgo env query limit = [])
    ∧ ((∀ q n, env.run q n = .error ()) → search_images_duckduckgo env query limit = [])
    ∧ search_images_duckduckgo (normalizeDdgEnv env) query limit
        = search_images_duckduckgo env query limit := by
  refine ⟨?_, ?_, ?_⟩
  · intro h
    simp [search_images_duckduckgo, h]
  · intro h
    rw [search_images_duckduckgo]
    split
    · rfl
    · split
      · rfl
      · split
        · rfl
        · rw [ddgCollect_all_errors env (limit * 2) h]
          simp [sortByScoreDesc]
  · have ha : (normalizeDdgEnv env).available = env.available := rfl
    have hi : (normalizeDdgEnv env).initOk = env.initOk := rfl
    rw [search_images_duckduckgo, search_images_duckduckgo, ha, hi,
        ddgCollect_normalize]

/-- Witness for claim C7: an absent provider and an all-raising provider
both yield the empty list for a live query. -/
theorem claim_c7_witness :
    search_images_duckduckgo unavailableDdgEnv "firefox" 15 = []
    ∧ search_images_duckduckgo failingDdgEnv "firefox" 15 = [] :=
  ⟨(claim_c7 unavailableDdgEnv "firefox" 15).1 rfl,
   (claim_c7 failingDdgEnv "firefox" 15).2.1 (fun _ _ => rfl)⟩

/-- Inserting by descending score is a permutation of consing. -/
theorem insertByScoreDesc_perm (x : IconResult) :
    ∀ l : List IconResult, List.Perm (insertByScoreDesc x l) (x :: l) := by
  intro l
  induction l with
  | nil => exact List.Perm.refl _
  | cons y ys ih =>
    rw [insertByScoreDesc]
    split
    · exact List.Perm.refl _
    · exact (ih.cons y).trans (List.Perm.swap x y ys)

/-- The insertion-sort fold permutes its accumulator and its input. -/
theorem sortByScoreDesc_aux :
    ∀ (l acc : List IconResult),
      List.Perm (List.foldl (fun a x => insertByScoreDesc x a) acc l) (acc ++ l) := by
  intro l
  induction l with
  | nil => intro acc; simp
  | cons x xs ih =>
    intro acc
    rw [List.foldl_cons]
    refine ((ih (insertByScoreDesc x acc)).trans ?_)
    refine (((insertByScoreDesc_perm x acc).append_right xs).trans ?_)
    exact List.perm_middle.symm

/-- The score sort permutes its input. -/
theorem sortByScoreDesc_perm (l : List IconResult) : List.Perm (sortByScoreDesc l) l := by
  have h := sortByScoreDesc_aux l []
  simpa [sortByScoreDesc] using h

/-- The deduplicating append loop preserves URL-uniqueness: if the
accumulator's URLs are distinct and all recorded as seen, the loop's
output has distinct URLs, all recorded in the output seen-set. -/
theorem dedupAppendLoop_invariant :
    ∀ (inp acc : List IconResult) (seen : List String),
      (acc.map (fun r => r.image_url)).Nodup →
      (∀ u ∈ acc.map (fun r => r.image_url), u ∈ seen) →
      ((dedupAppendLoop inp acc seen).1.map (fun r => r.image_url)).Nodup
      ∧ ∀ u ∈ (dedupAppendLoop inp acc seen).1.map (fun r => r.image_url),
          u ∈ (dedupAppendLoop inp acc seen).2 := by
  intro inp
  induction inp with
  | nil => intro acc seen h1 h2; exact ⟨h1, h2⟩
  | cons r rest ih =>
    intro acc seen h1 h2
    rw [dedupAppendLoop]
    split
    · exact ih acc seen h1 h2
    · rename_i hnew
      apply ih
      · have hnotin : r.image_url ∉ acc.map (fun r => r.image_url) :=
          fun hmem => hnew (h2 _ hmem)
        simp [List.nodup_append, h1, hnotin]
      · intro u hu
        rw [List.map_append] at hu
        rcases List.mem_append.mp hu with h' | h'
        · exact List.mem_cons_of_mem _ (h2 u h')
        · simp at h'
          subst h'
          exact List.mem_cons_self _ _

/-- Claim C1: for every environment and request whose resolved search
term is non-empty and whose limit is `N ≥ 1`, `search_icons` returns at
most `N` candidates, no two of which share an `image_url` (exact string
equality). -/
theorem claim_c1 (env : SearchEnv) (q n e : String) (N : Nat)
    (hN : 1 ≤ N) (hterm : searchTermOf q n e ≠ "") :
    (search_icons env q n e N).length ≤ N
    ∧ ((search_icons env q n e N).map (fun r => r.image_url)).Nodup := by
  have final : ∀ l : List IconResult, (l.map (fun r => r.image_url)).Nodup →
      ((sortByScoreDesc l).take N).length ≤ N
      ∧ (((sortByScoreDesc l).take N).map (fun r => r.image_url)).Nodup := by
    intro l hl
    refine ⟨List.length_take_le N _, ?_⟩
    have hperm := (sortByScoreDesc_perm l).map (fun r => r.image_url)
    have hnd := hperm.nodup_iff.mpr hl
    rw [List.map_take]
    exact hnd.sublist (List.take_sublist N _)
  rw [search_icons, if_neg hterm]
  have h1 := dedupAppendLoop_invariant
    (search_simple_icons env.simpleHeadOk (searchTermOf q n e) 5) [] []
    (by simp) (by simp)
  have h2 := dedupAppendLoop_invariant
    (search_iconify env.iconifyApi (searchTermOf q n e) 8)
    (dedupAppendLoop (search_simple_icons env.simpleHeadOk (searchTermOf q n e) 5) [] []).1
    (dedupAppendLoop (search_simple_icons env.simpleHeadOk (searchTermOf q n e) 5) [] []).2
    h1.1 h1.2
  dsimp only
  split
  · exact final _ (dedupAppendLoop_invariant _ _ _ h2.1 h2.2).1
  · exact final _ h2.1

/-- Witness for claim C1: a live request with resolved term `x` and
limit 1 against the empty environment. -/
theorem claim_c1_witness :
    (search_icons nullSearchEnv "x" "" "" 1).length ≤ 1
    ∧ ((search_icons nullSearchEnv "x" "" "" 1).map (fun r => r.image_url)).Nodup :=
  claim_c1 nullSearchEnv "x" "" "" 1 (by decide) (by decide)
